import Mathlib

/-!
Verification of the Commander flight state machine
(src/src/py/lander/nodes/commander.py).

The commander owns a current `FlightState`, a registry mapping each
non-`INIT` state to one guidance controller, and the transition protocol.
We embed it shallowly: the mutable fields `self.state` / `self.controller`
become a `CommanderNode` record, side effects (log lines, controller
callbacks, vehicle commands, rate sleeps) become an explicit event trace,
and Python exceptions thrown by controller callbacks become an oracle
`CtrlBehavior` saying which `enter()`/`exit()` calls raise, together with
a `raised` flag on each operation's outcome (an uncaught exception stops
the remaining statements of the operation, exactly as in the source).
-/

/-- The flight states of `lander.lib.state.FlightState`. -/
inductive FlightState
  | INIT
  | PENDING
  | SEEK
  | APPROACH
  | DESCEND
  | LAND
deriving DecidableEq, Repr

/-- One identifier per controller instance built in `CommanderNode.__init__`
(`PendingController`, `SeekController`, `ApproachController`,
`DescendController`, `LandController`). -/
inductive ControllerId
  | pending
  | seek
  | approach
  | descend
  | land
deriving DecidableEq, Repr

/-- `GUIDED_MODES = ("GUIDED", "OFFBOARD")` from commander.py. -/
def GUIDED_MODES : List String := ["GUIDED", "OFFBOARD"]

/-- The spec's pure classifier `isGuidedMode(name) -> bool` over the
configured set of recognized guided-mode strings.  The code inlines the
membership test `mode in GUIDED_MODES`; this definition names it so the
classifier can be compared with the code's test. -/
def isGuidedMode (name : String) : Bool := GUIDED_MODES.contains name

/-- The commander's mutable fields: `self.state` and `self.controller`
(`None` before the first transition). -/
structure CommanderNode where
  state : FlightState
  controller : Option ControllerId
deriving DecidableEq, Repr

/-- The registry `self.controllers` built in `__init__`: a fixed map from
each non-`INIT` state to one controller; `INIT` has no entry (a lookup at
`INIT` raises `KeyError` in Python, hence `none`). -/
def controllers : FlightState → Option ControllerId
  | .PENDING => some .pending
  | .SEEK => some .seek
  | .APPROACH => some .approach
  | .DESCEND => some .descend
  | .LAND => some .land
  | .INIT => none

/-- Observable side effects of the commander, in program order. -/
inductive Event
  | logTransition (oldState newState : FlightState)
  | ctrlExit (c : ControllerId)
  | ctrlEnter (c : ControllerId)
  | ctrlRun (c : ControllerId)
  | ctrlTrack (c : ControllerId) (obs : Nat)
  | setVelocitySetpoint (vx vy vz yawRate : Int)
  | setMode (name : String)
  | logRelinquish
  | sleep
deriving DecidableEq, Repr

/-- Oracle for controller callbacks: which controllers' `exit()` and
`enter()` calls raise a Python exception. -/
structure CtrlBehavior where
  exitRaises : ControllerId → Bool
  enterRaises : ControllerId → Bool

/-- The oracle under which no controller callback raises. -/
def benign : CtrlBehavior := ⟨fun _ => false, fun _ => false⟩

/-- Result of one commander operation: the commander's fields afterwards,
the emitted event trace, and whether an exception escaped the operation. -/
structure Outcome where
  cmd : CommanderNode
  events : List Event
  raised : Bool
deriving DecidableEq, Repr

/-- The tail of `transition_to_state` after the `exit()` call (or after
skipping it when `self.controller is None`):
`self.state = new_state; self.controller = self.controllers[new_state];
self.controller.enter()`.  A registry miss (`KeyError`) happens after the
state assignment but before the controller assignment; an exception in
`enter()` happens after both assignments. -/
def afterExit (b : CtrlBehavior) (cmd : CommanderNode) (newState : FlightState)
    (evs : List Event) : Outcome :=
  match controllers newState with
  | none => ⟨{ cmd with state := newState }, evs, true⟩
  | some nc =>
      ⟨{ state := newState, controller := some nc },
        evs ++ [.ctrlEnter nc], b.enterRaises nc⟩

/-- `transition_to_state(new_state)` from commander.py: log old → new,
call `exit()` on the current controller if there is one, then run the
bookkeeping tail.  An exception from `exit()` propagates immediately:
neither `self.state` nor `self.controller` is assigned. -/
def transition_to_state (b : CtrlBehavior) (cmd : CommanderNode)
    (newState : FlightState) : Outcome :=
  let ev0 : List Event := [.logTransition cmd.state newState]
  match cmd.controller with
  | some c =>
      if b.exitRaises c then
        ⟨cmd, ev0 ++ [.ctrlExit c], true⟩
      else
        afterExit b cmd newState (ev0 ++ [.ctrlExit c])
  | none => afterExit b cmd newState ev0

/-- `handle_state_message(msg)` from commander.py, applied to the mode
string carried by the message. -/
def handle_state_message (b : CtrlBehavior) (cmd : CommanderNode)
    (mode : String) : Outcome :=
  if mode ∈ GUIDED_MODES ∧ cmd.state = .PENDING then
    transition_to_state b cmd .SEEK
  else if mode ∉ GUIDED_MODES ∧ cmd.state ≠ .PENDING then
    transition_to_state b cmd .PENDING
  else
    ⟨cmd, [], false⟩

/-- `handle_track_message(msg)` from commander.py: forward the message to
`self.controller.handle_track_message` (an `AttributeError` if the
controller is still `None`, which cannot happen after construction). -/
def handle_track_message (cmd : CommanderNode) (obs : Nat) : Outcome :=
  match cmd.controller with
  | some c => ⟨cmd, [.ctrlTrack c obs], false⟩
  | none => ⟨cmd, [], true⟩

/-- The wait loop of `relinquish_control`:
`while self.state != PENDING and not rospy.is_shutdown():
self.control_loop_rate.sleep()`.
The callbacks run concurrently, so the loop guard may observe a different
`self.state` (and shutdown flag) at each evaluation; the argument is the
stream of those guard observations, one per evaluation. -/
def relinquish_wait : List (FlightState × Bool) → List Event
  | [] => []
  | (s, shutdown) :: rest =>
      if s ≠ FlightState.PENDING ∧ shutdown = false then
        .sleep :: relinquish_wait rest
      else
        []

/-- `relinquish_control()` from commander.py: log, command a full-stop
velocity setpoint `(0, 0, 0, 0)`, command mode `"POSHOLD"`, then poll at
the control-loop rate until the guard observes `PENDING` or shutdown.
The method assigns neither `self.state` nor `self.controller`. -/
def relinquish_control (cmd : CommanderNode)
    (obsvs : List (FlightState × Bool)) : Outcome :=
  ⟨cmd,
    .logRelinquish :: .setVelocitySetpoint 0 0 0 0 :: .setMode "POSHOLD" ::
      relinquish_wait obsvs,
    false⟩

/-- Modelled from the spec: the concrete controllers' `run()` bodies are
not under src/.  Per the controller contract (§6) a controller holds a
back-reference to the commander and may affect it only by requesting
transitions, e.g. Seek requesting a transition to Approach.  A `run()`
call is therefore modelled as performing a list of requested transitions;
an exception from a transition propagates and stops the rest of `run()`. -/
def runTransitions (b : CtrlBehavior) : List FlightState → CommanderNode → Outcome
  | [], cmd => ⟨cmd, [], false⟩
  | s :: rest, cmd =>
      let o := transition_to_state b cmd s
      if o.raised then
        o
      else
        let o2 := runTransitions b rest o.cmd
        ⟨o2.cmd, o.events ++ o2.events, o2.raised⟩

/-- One iteration body of `CommanderNode.run`: `self.controller.run()`,
with the active controller's effect on the commander modelled by
`runTransitions` (see its doc comment). -/
def onTick (b : CtrlBehavior) (reqs : List FlightState)
    (cmd : CommanderNode) : Outcome :=
  match cmd.controller with
  | none => ⟨cmd, [], true⟩
  | some c =>
      let o := runTransitions b reqs cmd
      ⟨o.cmd, .ctrlRun c :: o.events, o.raised⟩

/-- The state-machine part of `CommanderNode.__init__`:
`self.controller = None; self.state = FlightState.INIT;
self.transition_to_state(FlightState.PENDING)`. -/
def initCommander (b : CtrlBehavior) : Outcome :=
  transition_to_state b ⟨.INIT, none⟩ .PENDING

/-- The operations that can reach the commander after construction:
FCU mode events, track events, control-loop ticks, and
`relinquish_control` calls. -/
inductive Op
  | modeEvent (mode : String)
  | trackEvent (obs : Nat)
  | tick (reqs : List FlightState)
  | relinquish (obsvs : List (FlightState × Bool))

/-- A tick is within the controller contract when the transitions its
`run()` requests all target registry states (never `INIT`, which has no
registry entry and per the spec is never re-entered). -/
def okOp : Op → Bool
  | .tick reqs => reqs.all (fun s => s ≠ FlightState.INIT)
  | _ => true

/-- Effect of one operation on the commander's fields. -/
def applyOp (b : CtrlBehavior) (cmd : CommanderNode) : Op → CommanderNode
  | .modeEvent m => (handle_state_message b cmd m).cmd
  | .trackEvent o => (handle_track_message cmd o).cmd
  | .tick reqs => (onTick b reqs cmd).cmd
  | .relinquish obsvs => (relinquish_control cmd obsvs).cmd

/-- Effect of a sequence of operations, first to last. -/
def applyOps (b : CtrlBehavior) (cmd : CommanderNode) : List Op → CommanderNode
  | [] => cmd
  | op :: rest => applyOps b (applyOp b cmd op) rest

/-! ## Helper lemmas -/

lemma controllers_of_ne_INIT (s : FlightState) (h : s ≠ .INIT) :
    ∃ c, controllers s = some c := by
  cases s <;> simp [controllers] at h ⊢

lemma transition_to_state_cmd_benign (cmd : CommanderNode) (ns : FlightState)
    (nc : ControllerId) (h : controllers ns = some nc) :
    (transition_to_state benign cmd ns).cmd = ⟨ns, some nc⟩ := by
  cases hc : cmd.controller <;>
    simp [transition_to_state, afterExit, benign, hc, h]

lemma handle_track_message_cmd (cmd : CommanderNode) (obs : Nat) :
    (handle_track_message cmd obs).cmd = cmd := by
  cases hc : cmd.controller <;> simp [handle_track_message, hc]

/-! ## Claims -/

/-- C1: for every mode string delivered to `handle_state_message`: if the
mode is guided and the state is `PENDING`, the commander transitions to
`SEEK`; if the mode is not guided and the state is not `PENDING`, it
transitions to `PENDING`; in every other case the handler is a no-op
(fields unchanged, no events, no transition), for every controller
behavior. -/
theorem handle_state_message_dispatch (cmd : CommanderNode) (m : String) :
    (m ∈ GUIDED_MODES → cmd.state = .PENDING →
      (handle_state_message benign cmd m).cmd = ⟨.SEEK, some .seek⟩) ∧
    (m ∉ GUIDED_MODES → cmd.state ≠ .PENDING →
      (handle_state_message benign cmd m).cmd = ⟨.PENDING, some .pending⟩) ∧
    (¬(m ∈ GUIDED_MODES ∧ cmd.state = .PENDING) →
      ¬(m ∉ GUIDED_MODES ∧ cmd.state ≠ .PENDING) →
      ∀ b : CtrlBehavior, handle_state_message b cmd m = ⟨cmd, [], false⟩) := by
  refine ⟨fun hm hs => ?_, fun hm hs => ?_, fun h1 h2 b => ?_⟩
  · rw [handle_state_message, if_pos ⟨hm, hs⟩]
    exact transition_to_state_cmd_benign cmd .SEEK .seek rfl
  · rw [handle_state_message, if_neg (by tauto), if_pos ⟨hm, hs⟩]
    exact transition_to_state_cmd_benign cmd .PENDING .pending rfl
  · rw [handle_state_message, if_neg h1, if_neg h2]

theorem handle_state_message_dispatch_witness :
    (handle_state_message benign ⟨.PENDING, some .pending⟩ "GUIDED").cmd
        = ⟨.SEEK, some .seek⟩ ∧
    (handle_state_message benign ⟨.DESCEND, some .descend⟩ "MANUAL").cmd
        = ⟨.PENDING, some .pending⟩ ∧
    handle_state_message benign ⟨.SEEK, some .seek⟩ "OFFBOARD"
        = ⟨⟨.SEEK, some .seek⟩, [], false⟩ :=
  ⟨(handle_state_message_dispatch ⟨.PENDING, some .pending⟩ "GUIDED").1
      (by decide) rfl,
   (handle_state_message_dispatch ⟨.DESCEND, some .descend⟩ "MANUAL").2.1
      (by decide) (by decide),
   (handle_state_message_dispatch ⟨.SEEK, some .seek⟩ "OFFBOARD").2.2
      (by decide) (by decide) benign⟩

/-- C2: `transition_to_state` logs old → new, calls `exit()` on the
active controller if there is one, updates `state` and `controller` to
the registry entry for the new state, and calls `enter()` on the new
controller, in that order; `exit()` always precedes `enter()`. -/
theorem transition_exit_before_enter (cmd : CommanderNode) (ns : FlightState)
    (nc : ControllerId) (h : controllers ns = some nc) :
    (∀ c, cmd.controller = some c →
      transition_to_state benign cmd ns =
        ⟨⟨ns, some nc⟩,
          [.logTransition cmd.state ns, .ctrlExit c, .ctrlEnter nc], false⟩) ∧
    (cmd.controller = none →
      transition_to_state benign cmd ns =
        ⟨⟨ns, some nc⟩, [.logTransition cmd.state ns, .ctrlEnter nc], false⟩) := by
  constructor
  · intro c hc
    simp [transition_to_state, afterExit, benign, hc, h]
  · intro hc
    simp [transition_to_state, afterExit, benign, hc, h]

theorem transition_exit_before_enter_witness :
    transition_to_state benign ⟨.PENDING, some .pending⟩ .SEEK =
      ⟨⟨.SEEK, some .seek⟩,
        [.logTransition .PENDING .SEEK, .ctrlExit .pending, .ctrlEnter .seek],
        false⟩ :=
  (transition_exit_before_enter ⟨.PENDING, some .pending⟩ .SEEK .seek rfl).1
    .pending rfl

/-- The oracle under which every controller's `exit()` raises and no
`enter()` does. -/
def exitAlwaysRaises : CtrlBehavior := ⟨fun _ => true, fun _ => false⟩

/-- The oracle under which every controller's `enter()` raises and no
`exit()` does. -/
def enterAlwaysRaises : CtrlBehavior := ⟨fun _ => false, fun _ => true⟩

/-- C3, counterexample: with the commander in `SEEK` and the seek
controller's `exit()` raising, `transition_to_state` to `PENDING` lets
the exception escape and leaves `state` and `controller` unchanged at
the old (exited) controller: the transition bookkeeping is NOT
completed, contrary to the claim, and nothing inside
`transition_to_state` catches or logs the error. -/
theorem transition_exit_error_aborts_bookkeeping :
    (transition_to_state exitAlwaysRaises ⟨.SEEK, some .seek⟩ .PENDING).raised
        = true ∧
    (transition_to_state exitAlwaysRaises ⟨.SEEK, some .seek⟩ .PENDING).cmd
        = ⟨.SEEK, some .seek⟩ ∧
    (⟨.SEEK, some .seek⟩ : CommanderNode)
        ≠ ⟨.PENDING, controllers .PENDING⟩ := by
  refine ⟨rfl, rfl, by decide⟩

/-- C3, amended: `transition_to_state` has no error handling of its own.
If the old controller's `exit()` raises, the exception propagates before
the bookkeeping: `state` and `controller` keep their old values, so the
commander still references the exited controller.  If `exit()` succeeds
and the new controller's `enter()` raises, the bookkeeping has already
completed: `state` and `controller` hold the new state and
`registry[newState]` when the exception propagates. -/
theorem transition_error_semantics (b : CtrlBehavior) (cmd : CommanderNode)
    (ns : FlightState) (nc c : ControllerId)
    (h : controllers ns = some nc) (hc : cmd.controller = some c) :
    (b.exitRaises c = true →
      transition_to_state b cmd ns =
        ⟨cmd, [.logTransition cmd.state ns, .ctrlExit c], true⟩) ∧
    (b.exitRaises c = false → b.enterRaises nc = true →
      transition_to_state b cmd ns =
        ⟨⟨ns, some nc⟩,
          [.logTransition cmd.state ns, .ctrlExit c, .ctrlEnter nc], true⟩) := by
  constructor
  · intro hex
    simp [transition_to_state, hc, hex]
  · intro hex hen
    simp [transition_to_state, afterExit, hc, hex, h, hen]

theorem transition_error_semantics_witness :
    transition_to_state exitAlwaysRaises ⟨.DESCEND, some .descend⟩ .PENDING =
      ⟨⟨.DESCEND, some .descend⟩,
        [.logTransition .DESCEND .PENDING, .ctrlExit .descend], true⟩ ∧
    transition_to_state enterAlwaysRaises ⟨.DESCEND, some .descend⟩ .PENDING =
      ⟨⟨.PENDING, some .pending⟩,
        [.logTransition .DESCEND .PENDING, .ctrlExit .descend,
          .ctrlEnter .pending], true⟩ :=
  ⟨(transition_error_semantics exitAlwaysRaises ⟨.DESCEND, some .descend⟩
      .PENDING .pending .descend rfl rfl).1 rfl,
   (transition_error_semantics enterAlwaysRaises ⟨.DESCEND, some .descend⟩
      .PENDING .pending .descend rfl rfl).2 rfl rfl⟩

lemma relinquish_wait_replicate (obsvs : List (FlightState × Bool)) :
    ∃ k, relinquish_wait obsvs = List.replicate k Event.sleep := by
  induction obsvs with
  | nil => exact ⟨0, rfl⟩
  | cons p rest ih =>
      obtain ⟨s, sd⟩ := p
      obtain ⟨k, hk⟩ := ih
      by_cases hg : s ≠ FlightState.PENDING ∧ sd = false
      · exact ⟨k + 1, by simp [relinquish_wait, hg, hk, List.replicate_succ]⟩
      · exact ⟨0, by simp [relinquish_wait, hg]⟩

/-- C6: for every current commander state and every stream of guard
observations, `relinquish_control` emits its log line, exactly one
full-stop velocity setpoint (all axes zero) and exactly one `"POSHOLD"`
mode command, in that order, before the first poll sleep; everything
after them is only sleeps, and the commander's fields are untouched. -/
theorem relinquish_commands_before_polling (cmd : CommanderNode)
    (obsvs : List (FlightState × Bool)) :
    ∃ k, relinquish_control cmd obsvs =
      ⟨cmd,
        .logRelinquish :: .setVelocitySetpoint 0 0 0 0 :: .setMode "POSHOLD" ::
          List.replicate k Event.sleep,
        false⟩ := by
  obtain ⟨k, hk⟩ := relinquish_wait_replicate obsvs
  exact ⟨k, by simp [relinquish_control, hk]⟩

/-- C7: the wait loop of `relinquish_control` sleeps exactly once per
guard evaluation that observes a non-`PENDING` state with no shutdown,
and as soon as a guard evaluation observes `PENDING` (or shutdown) the
loop ends with no further sleep. -/
theorem relinquish_wait_returns_immediately
    (pre : List (FlightState × Bool)) (s : FlightState) (sd : Bool)
    (rest : List (FlightState × Bool))
    (hpre : ∀ p ∈ pre, p.1 ≠ FlightState.PENDING ∧ p.2 = false)
    (hstop : s = .PENDING ∨ sd = true) :
    relinquish_wait (pre ++ (s, sd) :: rest) =
      List.replicate pre.length Event.sleep := by
  induction pre with
  | nil =>
      have : ¬(s ≠ FlightState.PENDING ∧ sd = false) := by
        rcases hstop with h | h <;> simp [h]
      simp [relinquish_wait, this]
  | cons p pre ih =>
      obtain ⟨q, qs⟩ := p
      have hq := hpre (q, qs) (by simp)
      have hrest : ∀ p ∈ pre, p.1 ≠ FlightState.PENDING ∧ p.2 = false :=
        fun p hp => hpre p (by simp [hp])
      simp only [List.cons_append, relinquish_wait, List.length_cons,
        List.replicate_succ]
      rw [if_pos ⟨hq.1, hq.2⟩]
      exact congrArg _ (ih hrest)

theorem relinquish_wait_returns_immediately_witness :
    (∀ p ∈ ([(FlightState.DESCEND, false), (FlightState.SEEK, false)] :
        List (FlightState × Bool)),
      p.1 ≠ FlightState.PENDING ∧ p.2 = false) ∧
    relinquish_wait
        [(FlightState.DESCEND, false), (FlightState.SEEK, false),
          (FlightState.PENDING, false), (FlightState.SEEK, false)] =
      List.replicate 2 Event.sleep :=
  ⟨by decide,
   relinquish_wait_returns_immediately
     [(FlightState.DESCEND, false), (FlightState.SEEK, false)]
     .PENDING false [(FlightState.SEEK, false)] (by decide) (Or.inl rfl)⟩

/-- C8: a mode string is classified as guided exactly when it belongs to
the recognized guided-mode set `GUIDED_MODES`; any string outside the
set — in particular any unknown mode — is not guided, and delivering it
while the state is not `PENDING` forces a transition to `PENDING`. -/
theorem guided_mode_classification :
    (∀ m : String, isGuidedMode m = true ↔ m ∈ GUIDED_MODES) ∧
    (∀ (m : String) (cmd : CommanderNode), isGuidedMode m = false →
      cmd.state ≠ .PENDING →
      (handle_state_message benign cmd m).cmd = ⟨.PENDING, some .pending⟩) := by
  have hmem : ∀ m : String, isGuidedMode m = true ↔ m ∈ GUIDED_MODES := by
    intro m
    simp [isGuidedMode, List.elem_iff]
  refine ⟨hmem, fun m cmd hm hs => ?_⟩
  have hnot : m ∉ GUIDED_MODES := fun h => by
    rw [← hmem m] at h
    exact absurd hm (by simp [h])
  exact (handle_state_message_dispatch cmd m).2.1 hnot hs

theorem guided_mode_classification_witness :
    isGuidedMode "LOITER" = false ∧
    (handle_state_message benign ⟨.APPROACH, some .approach⟩ "LOITER").cmd
        = ⟨.PENDING, some .pending⟩ :=
  ⟨by decide,
   guided_mode_classification.2 "LOITER" ⟨.APPROACH, some .approach⟩
     (by decide) (by decide)⟩

/-- C9: `handle_track_message` forwards the observation, unmodified and
as the only emitted event, to the controller that is active at delivery
time, leaves the commander's fields untouched, and delivers to no other
controller and no other observation value. -/
theorem track_update_forwarded_to_active (cmd : CommanderNode)
    (c : ControllerId) (obs : Nat) (hc : cmd.controller = some c) :
    handle_track_message cmd obs = ⟨cmd, [.ctrlTrack c obs], false⟩ ∧
    (∀ (c' : ControllerId) (o' : Nat),
      Event.ctrlTrack c' o' ∈ (handle_track_message cmd obs).events →
      c' = c ∧ o' = obs) := by
  have h : handle_track_message cmd obs = ⟨cmd, [.ctrlTrack c obs], false⟩ := by
    simp [handle_track_message, hc]
  refine ⟨h, fun c' o' hmem => ?_⟩
  rw [h] at hmem
  simp only [List.mem_singleton, Event.ctrlTrack.injEq] at hmem
  exact hmem

theorem track_update_forwarded_to_active_witness :
    handle_track_message ⟨.APPROACH, some .approach⟩ 42 =
      ⟨⟨.APPROACH, some .approach⟩, [.ctrlTrack .approach 42], false⟩ :=
  (track_update_forwarded_to_active ⟨.APPROACH, some .approach⟩ .approach 42
    rfl).1

/-- C10: `"POSHOLD"`, the hold mode commanded by `relinquish_control`,
is not in the guided-mode set, so from any non-`PENDING` state a
subsequent FCU mode event carrying it transitions the commander to
`PENDING` — and a guard observation of `PENDING` ends the
`relinquish_control` wait loop with no further sleep. -/
theorem poshold_not_guided_forces_pending :
    "POSHOLD" ∉ GUIDED_MODES ∧
    (∀ cmd : CommanderNode, cmd.state ≠ .PENDING →
      (handle_state_message benign cmd "POSHOLD").cmd
          = ⟨.PENDING, some .pending⟩) ∧
    (∀ (sd : Bool) (rest : List (FlightState × Bool)),
      relinquish_wait ((FlightState.PENDING, sd) :: rest) = []) := by
  refine ⟨by decide, fun cmd hs => ?_, fun sd rest => ?_⟩
  · exact (handle_state_message_dispatch cmd "POSHOLD").2.1 (by decide) hs
  · simp [relinquish_wait]

theorem poshold_not_guided_forces_pending_witness :
    (handle_state_message benign ⟨.DESCEND, some .descend⟩ "POSHOLD").cmd
        = ⟨.PENDING, some .pending⟩ :=
  poshold_not_guided_forces_pending.2.1 ⟨.DESCEND, some .descend⟩ (by decide)

/-- The commander's state-machine invariant after construction: the state
is no longer `INIT`, and the active controller is exactly the registry
entry for the current state. -/
def GoodInv (cmd : CommanderNode) : Prop :=
  cmd.state ≠ .INIT ∧ cmd.controller = controllers cmd.state

lemma transition_goodInv (b : CtrlBehavior) (cmd : CommanderNode)
    (ns : FlightState) (hns : ns ≠ .INIT) (h : GoodInv cmd) :
    GoodInv (transition_to_state b cmd ns).cmd := by
  obtain ⟨nc, hnc⟩ := controllers_of_ne_INIT ns hns
  cases hc : cmd.controller with
  | none => simp [transition_to_state, afterExit, hc, hnc, GoodInv, hns]
  | some c =>
      by_cases hex : b.exitRaises c = true
      · simpa [transition_to_state, hc, hex] using h
      · simp [transition_to_state, afterExit, hc, hex, hnc, GoodInv, hns]

lemma runTransitions_goodInv (b : CtrlBehavior) (reqs : List FlightState)
    (cmd : CommanderNode) (hreqs : ∀ s ∈ reqs, s ≠ FlightState.INIT)
    (h : GoodInv cmd) : GoodInv (runTransitions b reqs cmd).cmd := by
  induction reqs generalizing cmd with
  | nil => simpa [runTransitions] using h
  | cons s rest ih =>
      have hs : s ≠ FlightState.INIT := hreqs s (by simp)
      have h1 := transition_goodInv b cmd s hs h
      by_cases hr : (transition_to_state b cmd s).raised = true
      · simpa [runTransitions, hr] using h1
      · have h2 := ih (transition_to_state b cmd s).cmd
          (fun t ht => hreqs t (by simp [ht])) h1
        simpa [runTransitions, hr] using h2

lemma applyOp_goodInv (b : CtrlBehavior) (cmd : CommanderNode) (op : Op)
    (hop : okOp op = true) (h : GoodInv cmd) : GoodInv (applyOp b cmd op) := by
  cases op with
  | modeEvent m =>
      show GoodInv (handle_state_message b cmd m).cmd
      rw [handle_state_message]
      by_cases h1 : m ∈ GUIDED_MODES ∧ cmd.state = .PENDING
      · rw [if_pos h1]
        exact transition_goodInv b cmd .SEEK (by simp) h
      · rw [if_neg h1]
        by_cases h2 : m ∉ GUIDED_MODES ∧ cmd.state ≠ .PENDING
        · rw [if_pos h2]
          exact transition_goodInv b cmd .PENDING (by simp) h
        · rwa [if_neg h2]
  | trackEvent o =>
      show GoodInv (handle_track_message cmd o).cmd
      rwa [handle_track_message_cmd]
  | tick reqs =>
      show GoodInv (onTick b reqs cmd).cmd
      have hreqs : ∀ s ∈ reqs, s ≠ FlightState.INIT := by
        simpa [okOp, List.all_eq_true] using hop
      cases hc : cmd.controller with
      | none => simpa [onTick, hc] using h
      | some c =>
          have := runTransitions_goodInv b reqs cmd hreqs h
          simpa [onTick, hc] using this
  | relinquish obsvs => exact h

lemma applyOps_goodInv (b : CtrlBehavior) (cmd : CommanderNode)
    (ops : List Op) (hops : ops.all okOp = true) (h : GoodInv cmd) :
    GoodInv (applyOps b cmd ops) := by
  induction ops generalizing cmd with
  | nil => exact h
  | cons op rest ih =>
      rw [List.all_cons, Bool.and_eq_true] at hops
      exact ih (applyOp b cmd op) hops.2 (applyOp_goodInv b cmd op hops.1 h)

lemma initCommander_cmd (b : CtrlBehavior) :
    (initCommander b).cmd = ⟨.PENDING, some .pending⟩ := rfl

/-- C4: for every controller behavior and every sequence of operations
within the controller contract, `controller` equals the registry entry
for `state` and is non-null, both right after construction and after the
whole sequence has been applied. -/
theorem activeController_matches_registry (b : CtrlBehavior) (ops : List Op)
    (hops : ops.all okOp = true) :
    (initCommander b).cmd.controller
        = controllers (initCommander b).cmd.state ∧
    (applyOps b (initCommander b).cmd ops).controller
        = controllers (applyOps b (initCommander b).cmd ops).state ∧
    (applyOps b (initCommander b).cmd ops).controller ≠ none := by
  have h0 : GoodInv (initCommander b).cmd := by
    rw [initCommander_cmd]
    exact ⟨by simp, rfl⟩
  have hfin := applyOps_goodInv b (initCommander b).cmd ops hops h0
  obtain ⟨nc, hnc⟩ :=
    controllers_of_ne_INIT (applyOps b (initCommander b).cmd ops).state hfin.1
  exact ⟨h0.2, hfin.2, by simp [hfin.2, hnc]⟩

theorem activeController_matches_registry_witness :
    ([Op.modeEvent "GUIDED", Op.trackEvent 7, Op.tick [.APPROACH],
        Op.relinquish [(FlightState.APPROACH, false)],
        Op.modeEvent "MANUAL"].all okOp = true) ∧
    (applyOps benign (initCommander benign).cmd
        [Op.modeEvent "GUIDED", Op.trackEvent 7, Op.tick [.APPROACH],
          Op.relinquish [(FlightState.APPROACH, false)],
          Op.modeEvent "MANUAL"]).controller ≠ none :=
  ⟨by decide,
   (activeController_matches_registry benign
      [Op.modeEvent "GUIDED", Op.trackEvent 7, Op.tick [.APPROACH],
        Op.relinquish [(FlightState.APPROACH, false)],
        Op.modeEvent "MANUAL"] (by decide)).2.2⟩

/-- C5: construction starts in `INIT` and immediately transitions to
`PENDING`, and no sequence of operations within the controller contract
ever brings the state back to `INIT`. -/
theorem init_state_never_reentered (b : CtrlBehavior) (ops : List Op)
    (hops : ops.all okOp = true) :
    (initCommander b).cmd.state = .PENDING ∧
    (initCommander b).events =
      [.logTransition .INIT .PENDING, .ctrlEnter .pending] ∧
    (applyOps b (initCommander b).cmd ops).state ≠ .INIT := by
  have h0 : GoodInv (initCommander b).cmd := by
    rw [initCommander_cmd]
    exact ⟨by simp, rfl⟩
  exact ⟨rfl, rfl, (applyOps_goodInv b (initCommander b).cmd ops hops h0).1⟩

theorem init_state_never_reentered_witness :
    (initCommander benign).cmd.state = .PENDING ∧
    (applyOps benign (initCommander benign).cmd
        [Op.modeEvent "OFFBOARD", Op.tick [.APPROACH, .DESCEND, .LAND],
          Op.trackEvent 3, Op.modeEvent "STABILIZE",
          Op.relinquish [(FlightState.PENDING, false)]]).state
      ≠ .INIT :=
  ⟨(init_state_never_reentered benign [] rfl).1,
   (init_state_never_reentered benign
      [Op.modeEvent "OFFBOARD", Op.tick [.APPROACH, .DESCEND, .LAND],
        Op.trackEvent 3, Op.modeEvent "STABILIZE",
        Op.relinquish [(FlightState.PENDING, false)]] (by decide)).2.2⟩
